import Mathlib

/-!
Verification of the event-classification-and-rendering layer of the
toolchain-distribution module (`src/dist/notifications.rs`).

The `Notification` enum, its `level` method and its `Display::fmt`
implementation are embedded shallowly.  Borrowed string payloads become
`String`; the opaque `TargetTriple` (equality-comparable, renderable) becomes
`String`; the opaque error and the wrapped lower-level utils notification are
modelled by the only data this module observes of them (their rendered text,
and their rendered text plus severity, respectively).  `Display::fmt` is
embedded as an `Option String`: a `t.unwrap()` panic would be `none`, so
totality of rendering is the statement that `fmt` is always `some`.
-/

/-- Modelled from the spec (the severity enum lives in `src/utils/notify.rs`,
which is not part of the shown sources): an ordered enumeration
Verbose < Info < Warn < Error. -/
inductive NotificationLevel where
  | Verbose
  | Info
  | Warn
  | Error
deriving DecidableEq, Repr, Fintype

/-- Numeric rank of a severity, following the declaration order
Verbose, Info, Warn, Error. -/
def NotificationLevel.toNat : NotificationLevel → Nat
  | .Verbose => 0
  | .Info => 1
  | .Warn => 2
  | .Error => 3

instance : LT NotificationLevel := ⟨fun a b => a.toNat < b.toNat⟩

instance : LE NotificationLevel := ⟨fun a b => a.toNat ≤ b.toNat⟩

instance (a b : NotificationLevel) : Decidable (a < b) := Nat.decLt a.toNat b.toNat

instance (a b : NotificationLevel) : Decidable (a ≤ b) := Nat.decLe a.toNat b.toNat

/-- `TargetTriple` (from `src/dist/dist.rs`, not among the shown sources) is an
opaque, equality-comparable, renderable platform identifier; it is embedded as
its textual form. -/
abbrev TargetTriple := String

/-- Modelled from the spec: the opaque error type carried by `NonFatalError`
(from `src/dist/errors.rs`); only its rendered text is used by this module. -/
structure DistError where
  rendered : String
deriving DecidableEq, Repr

/-- Modelled from the spec: the opaque lower-level `crate::utils::Notification`;
this module only observes its own severity (`level()`) and its own rendered
text (`Display::fmt`), to which it delegates. -/
structure UtilsNotification where
  level : NotificationLevel
  rendered : String
deriving DecidableEq, Repr

/-- The `Notification` enum of `src/dist/notifications.rs`: the closed union of
distribution lifecycle events. -/
inductive Notification where
  | Utils (n : UtilsNotification)
  | ChecksumValid (s : String)
  | SignatureValid (s : String)
  | FileAlreadyDownloaded
  | CachedFileChecksumFailed
  | RollingBack
  | ExtensionNotInstalled (s : String)
  | NonFatalError (e : DistError)
  | MissingInstalledComponent (s : String)
  | DownloadingComponent (c : String) (h : TargetTriple) (t : Option TargetTriple)
  | InstallingComponent (c : String) (h : TargetTriple) (t : Option TargetTriple)
  | RemovingComponent (c : String) (h : TargetTriple) (t : Option TargetTriple)
  | RemovingOldComponent (c : String) (h : TargetTriple) (t : Option TargetTriple)
  | DownloadingManifest (s : String)
  | DownloadedManifest (date : String) (version : Option String)
  | DownloadingLegacyManifest
  | ManifestChecksumFailedHack
  | ComponentUnavailable (pkg : String) (toolchain : Option TargetTriple)
deriving DecidableEq, Repr

/-- `Notification::level` of `src/dist/notifications.rs`: severity
classification of an event. -/
def Notification.level : Notification → NotificationLevel
  | .Utils n => n.level
  | .ChecksumValid _ | .FileAlreadyDownloaded | .DownloadingLegacyManifest =>
      .Verbose
  | .SignatureValid _
  | .DownloadingComponent _ _ _
  | .InstallingComponent _ _ _
  | .RemovingComponent _ _ _
  | .RemovingOldComponent _ _ _
  | .ManifestChecksumFailedHack
  | .RollingBack
  | .DownloadingManifest _
  | .DownloadedManifest _ _ => .Info
  | .ExtensionNotInstalled _
  | .MissingInstalledComponent _
  | .CachedFileChecksumFailed
  | .ComponentUnavailable _ _ => .Warn
  | .NonFatalError _ => .Error

/-- `Display::fmt` of `src/dist/notifications.rs`, embedded as the rendered
text.  The `t.unwrap()` in the cross-target branches is embedded as a match
whose `none` arm yields `none` (the panic case), so `fmt n = some s` states
that rendering succeeds and produces `s`. -/
def Notification.fmt : Notification → Option String
  | .Utils n => some n.rendered
  | .ChecksumValid _ => some "checksum passed"
  | .SignatureValid _ => some "signature valid"
  | .FileAlreadyDownloaded => some "reusing previously downloaded file"
  | .CachedFileChecksumFailed => some "bad checksum for cached download"
  | .RollingBack => some "rolling back changes"
  | .ExtensionNotInstalled c => some ("extension '" ++ c ++ "' was not installed")
  | .NonFatalError e => some e.rendered
  | .MissingInstalledComponent c =>
      some ("during uninstall component " ++ c ++ " was not found")
  | .DownloadingComponent c h t =>
      if some h = t ∨ t = none then
        some ("downloading component '" ++ c ++ "'")
      else
        match t with
        | some x => some ("downloading component '" ++ c ++ "' for '" ++ x ++ "'")
        | none => none
  | .InstallingComponent c h t =>
      if some h = t ∨ t = none then
        some ("installing component '" ++ c ++ "'")
      else
        match t with
        | some x => some ("installing component '" ++ c ++ "' for '" ++ x ++ "'")
        | none => none
  | .RemovingComponent c h t =>
      if some h = t ∨ t = none then
        some ("removing component '" ++ c ++ "'")
      else
        match t with
        | some x => some ("removing component '" ++ c ++ "' for '" ++ x ++ "'")
        | none => none
  | .RemovingOldComponent c h t =>
      if some h = t ∨ t = none then
        some ("removing previous version of component '" ++ c ++ "'")
      else
        match t with
        | some x =>
            some ("removing previous version of component '" ++ c ++ "' for '" ++ x ++ "'")
        | none => none
  | .DownloadingManifest t => some ("syncing channel updates for '" ++ t ++ "'")
  | .DownloadedManifest date (some version) =>
      some ("latest update on " ++ date ++ ", rust version " ++ version)
  | .DownloadedManifest date none =>
      some ("latest update on " ++ date ++ ", no rust version")
  | .DownloadingLegacyManifest => some "manifest not found. trying legacy manifest"
  | .ManifestChecksumFailedHack =>
      some "update not yet available, sorry! try again later"
  | .ComponentUnavailable pkg (some tc) =>
      some ("component '" ++ pkg ++ "' is not available anymore on target '" ++ tc ++ "'")
  | .ComponentUnavailable pkg none =>
      some ("component '" ++ pkg ++ "' is not available anymore")

/-- Claim C1: for each of the four component-operation kinds, when the target is
absent or equals the host the rendering has no target suffix, and when the
target differs from the host the rendering carries the `for '<target>'`
suffix — the same collapsing rule for all four kinds. -/
theorem componentOps_collapse (c : String) (h x : TargetTriple) :
    (Notification.fmt (.DownloadingComponent c h none)
        = some ("downloading component '" ++ c ++ "'")
      ∧ Notification.fmt (.DownloadingComponent c h (some h))
        = some ("downloading component '" ++ c ++ "'")
      ∧ (x ≠ h → Notification.fmt (.DownloadingComponent c h (some x))
        = some ("downloading component '" ++ c ++ "' for '" ++ x ++ "'")))
  ∧ (Notification.fmt (.InstallingComponent c h none)
        = some ("installing component '" ++ c ++ "'")
      ∧ Notification.fmt (.InstallingComponent c h (some h))
        = some ("installing component '" ++ c ++ "'")
      ∧ (x ≠ h → Notification.fmt (.InstallingComponent c h (some x))
        = some ("installing component '" ++ c ++ "' for '" ++ x ++ "'")))
  ∧ (Notification.fmt (.RemovingComponent c h none)
        = some ("removing component '" ++ c ++ "'")
      ∧ Notification.fmt (.RemovingComponent c h (some h))
        = some ("removing component '" ++ c ++ "'")
      ∧ (x ≠ h → Notification.fmt (.RemovingComponent c h (some x))
        = some ("removing component '" ++ c ++ "' for '" ++ x ++ "'")))
  ∧ (Notification.fmt (.RemovingOldComponent c h none)
        = some ("removing previous version of component '" ++ c ++ "'")
      ∧ Notification.fmt (.RemovingOldComponent c h (some h))
        = some ("removing previous version of component '" ++ c ++ "'")
      ∧ (x ≠ h → Notification.fmt (.RemovingOldComponent c h (some x))
        = some ("removing previous version of component '" ++ c ++ "' for '" ++ x ++ "'"))) := by
  refine ⟨⟨rfl, ?_, fun hne => ?_⟩, ⟨rfl, ?_, fun hne => ?_⟩,
    ⟨rfl, ?_, fun hne => ?_⟩, ⟨rfl, ?_, fun hne => ?_⟩⟩ <;>
    simp [Notification.fmt] <;>
    (intro heq; exact absurd heq.symm hne)

/-- Witness for C1 at a concrete cross-target input. -/
theorem componentOps_collapse_witness :
    Notification.fmt (.DownloadingComponent "cargo" "x86_64-unknown-linux-gnu"
        (some "wasm32-unknown-unknown"))
      = some "downloading component 'cargo' for 'wasm32-unknown-unknown'" :=
  (componentOps_collapse "cargo" "x86_64-unknown-linux-gnu"
      "wasm32-unknown-unknown").1.2.2 (by decide)

/-- Claim C2: `level` assigns exactly the severity of the spec table to every
variant — Verbose, Info, Warn or Error as listed — for all payloads. -/
theorem level_table (s d : String) (e : DistError) (h : TargetTriple)
    (t : Option TargetTriple) (ov : Option String) :
    Notification.level (.ChecksumValid s) = .Verbose
  ∧ Notification.level .FileAlreadyDownloaded = .Verbose
  ∧ Notification.level .DownloadingLegacyManifest = .Verbose
  ∧ Notification.level (.SignatureValid s) = .Info
  ∧ Notification.level (.DownloadingComponent s h t) = .Info
  ∧ Notification.level (.InstallingComponent s h t) = .Info
  ∧ Notification.level (.RemovingComponent s h t) = .Info
  ∧ Notification.level (.RemovingOldComponent s h t) = .Info
  ∧ Notification.level .ManifestChecksumFailedHack = .Info
  ∧ Notification.level .RollingBack = .Info
  ∧ Notification.level (.DownloadingManifest s) = .Info
  ∧ Notification.level (.DownloadedManifest d ov) = .Info
  ∧ Notification.level (.ExtensionNotInstalled s) = .Warn
  ∧ Notification.level (.MissingInstalledComponent s) = .Warn
  ∧ Notification.level .CachedFileChecksumFailed = .Warn
  ∧ Notification.level (.ComponentUnavailable s t) = .Warn
  ∧ Notification.level (.NonFatalError e) = .Error :=
  ⟨rfl, rfl, rfl, rfl, rfl, rfl, rfl, rfl, rfl, rfl, rfl, rfl, rfl, rfl, rfl,
    rfl, rfl⟩

/-- Claim C3: both operations are total — `level` yields a severity and `fmt`
yields `some` rendered text on every event; in particular the `t.unwrap()`
(the `none` match arm of the embedding) is never reached, because the else
branch is only taken when the target is `some`. -/
theorem level_fmt_total (n : Notification) :
    (∃ l, Notification.level n = l) ∧ ∃ s, Notification.fmt n = some s := by
  refine ⟨⟨n.level, rfl⟩, ?_⟩
  cases n with
  | DownloadingComponent c h t =>
      rcases t with _ | x
      · exact ⟨_, rfl⟩
      · by_cases hx : h = x <;> simp [Notification.fmt, hx]
  | InstallingComponent c h t =>
      rcases t with _ | x
      · exact ⟨_, rfl⟩
      · by_cases hx : h = x <;> simp [Notification.fmt, hx]
  | RemovingComponent c h t =>
      rcases t with _ | x
      · exact ⟨_, rfl⟩
      · by_cases hx : h = x <;> simp [Notification.fmt, hx]
  | RemovingOldComponent c h t =>
      rcases t with _ | x
      · exact ⟨_, rfl⟩
      · by_cases hx : h = x <;> simp [Notification.fmt, hx]
  | DownloadedManifest d v => rcases v with _ | ver <;> exact ⟨_, rfl⟩
  | ComponentUnavailable p tc => rcases tc with _ | tt <;> exact ⟨_, rfl⟩
  | _ => exact ⟨_, rfl⟩

/-- Claim C4: on the wrapper variant both operations delegate entirely to the
wrapped lower-level value: its own severity and its own rendered text. -/
theorem utils_delegation (n : UtilsNotification) :
    Notification.level (.Utils n) = n.level
  ∧ Notification.fmt (.Utils n) = some n.rendered :=
  ⟨rfl, rfl⟩

/-- Claim C5: rendering of the downloaded-manifest event, with and without a
resolved rust version. -/
theorem downloadedManifest_render (d v : String) :
    Notification.fmt (.DownloadedManifest d (some v))
      = some ("latest update on " ++ d ++ ", rust version " ++ v)
  ∧ Notification.fmt (.DownloadedManifest d none)
      = some ("latest update on " ++ d ++ ", no rust version") :=
  ⟨rfl, rfl⟩

/-- Claim C6: rendering of the component-unavailable event, with and without a
target triple. -/
theorem componentUnavailable_render (p : String) (tc : TargetTriple) :
    Notification.fmt (.ComponentUnavailable p (some tc))
      = some ("component '" ++ p ++ "' is not available anymore on target '" ++ tc ++ "'")
  ∧ Notification.fmt (.ComponentUnavailable p none)
      = some ("component '" ++ p ++ "' is not available anymore") :=
  ⟨rfl, rfl⟩

/-- Claim C7: every variant other than the four component operations and the
wrapper renders to exactly its fixed template with fields substituted, and the
non-fatal-error variant renders to the wrapped error text unchanged. -/
theorem fixed_templates (s c ch : String) (e : DistError) :
    Notification.fmt (.ChecksumValid s) = some "checksum passed"
  ∧ Notification.fmt (.SignatureValid s) = some "signature valid"
  ∧ Notification.fmt .FileAlreadyDownloaded
      = some "reusing previously downloaded file"
  ∧ Notification.fmt .CachedFileChecksumFailed
      = some "bad checksum for cached download"
  ∧ Notification.fmt .RollingBack = some "rolling back changes"
  ∧ Notification.fmt (.ExtensionNotInstalled c)
      = some ("extension '" ++ c ++ "' was not installed")
  ∧ Notification.fmt (.MissingInstalledComponent c)
      = some ("during uninstall component " ++ c ++ " was not found")
  ∧ Notification.fmt (.DownloadingManifest ch)
      = some ("syncing channel updates for '" ++ ch ++ "'")
  ∧ Notification.fmt .DownloadingLegacyManifest
      = some "manifest not found. trying legacy manifest"
  ∧ Notification.fmt .ManifestChecksumFailedHack
      = some "update not yet available, sorry! try again later"
  ∧ Notification.fmt (.NonFatalError e) = some e.rendered :=
  ⟨rfl, rfl, rfl, rfl, rfl, rfl, rfl, rfl, rfl, rfl, rfl⟩

/-- Claim C8: `level` is deterministic and, outside the wrapper variant,
depends only on the variant identity — two events of the same variant with
arbitrary different payloads get the identical severity. -/
theorem level_variant_only
    (s1 s2 d1 d2 : String) (e1 e2 : DistError) (h1 h2 : TargetTriple)
    (t1 t2 : Option TargetTriple) (v1 v2 : Option String) :
    (∀ n m : Notification, n = m → Notification.level n = Notification.level m)
  ∧ Notification.level (.ChecksumValid s1) = Notification.level (.ChecksumValid s2)
  ∧ Notification.level (.SignatureValid s1) = Notification.level (.SignatureValid s2)
  ∧ Notification.level (.ExtensionNotInstalled s1)
      = Notification.level (.ExtensionNotInstalled s2)
  ∧ Notification.level (.NonFatalError e1) = Notification.level (.NonFatalError e2)
  ∧ Notification.level (.MissingInstalledComponent s1)
      = Notification.level (.MissingInstalledComponent s2)
  ∧ Notification.level (.DownloadingComponent s1 h1 t1)
      = Notification.level (.DownloadingComponent s2 h2 t2)
  ∧ Notification.level (.InstallingComponent s1 h1 t1)
      = Notification.level (.InstallingComponent s2 h2 t2)
  ∧ Notification.level (.RemovingComponent s1 h1 t1)
      = Notification.level (.RemovingComponent s2 h2 t2)
  ∧ Notification.level (.RemovingOldComponent s1 h1 t1)
      = Notification.level (.RemovingOldComponent s2 h2 t2)
  ∧ Notification.level (.DownloadingManifest s1)
      = Notification.level (.DownloadingManifest s2)
  ∧ Notification.level (.DownloadedManifest d1 v1)
      = Notification.level (.DownloadedManifest d2 v2)
  ∧ Notification.level (.ComponentUnavailable s1 t1)
      = Notification.level (.ComponentUnavailable s2 t2) :=
  ⟨fun _ _ hm => hm ▸ rfl, rfl, rfl, rfl, rfl, rfl, rfl, rfl, rfl, rfl, rfl,
    rfl, rfl⟩

/-- Witness for C8: determinism applied at a concrete event. -/
theorem level_variant_only_witness :
    Notification.level (.ChecksumValid "a") = Notification.level (.ChecksumValid "a") :=
  (level_variant_only "a" "b" "c" "d" ⟨"e"⟩ ⟨"f"⟩ "g" "h" none (some "i") none
      (some "1.75.0")).1 (.ChecksumValid "a") (.ChecksumValid "a") rfl

/-- Claim C9: the severity enumeration is totally ordered with
Verbose < Info < Warn < Error: the order is total, antisymmetric, transitive,
and strict order agrees with the non-strict one. -/
theorem severity_order :
    (NotificationLevel.Verbose < NotificationLevel.Info
      ∧ NotificationLevel.Info < NotificationLevel.Warn
      ∧ NotificationLevel.Warn < NotificationLevel.Error)
  ∧ (∀ a b : NotificationLevel, a ≤ b ∨ b ≤ a)
  ∧ (∀ a b : NotificationLevel, a ≤ b → b ≤ a → a = b)
  ∧ (∀ a b c : NotificationLevel, a ≤ b → b ≤ c → a ≤ c)
  ∧ (∀ a b : NotificationLevel, a < b ↔ a ≤ b ∧ ¬ b ≤ a) := by
  decide

/-- Witness for C9: antisymmetry applied at a concrete pair of severities. -/
theorem severity_order_witness :
    NotificationLevel.Info = NotificationLevel.Info :=
  severity_order.2.2.1 .Info .Info (by decide) (by decide)

/-- Claim C10: the rendering of a component operation depends on the host only
through its equality with the target — two hosts that agree on the collapsing
condition produce the identical rendered text, for all four kinds. -/
theorem render_host_noninterference (c : String) (h1 h2 : TargetTriple)
    (t : Option TargetTriple)
    (hcond : (t = some h1 ∨ t = none) ↔ (t = some h2 ∨ t = none)) :
    Notification.fmt (.DownloadingComponent c h1 t)
      = Notification.fmt (.DownloadingComponent c h2 t)
  ∧ Notification.fmt (.InstallingComponent c h1 t)
      = Notification.fmt (.InstallingComponent c h2 t)
  ∧ Notification.fmt (.RemovingComponent c h1 t)
      = Notification.fmt (.RemovingComponent c h2 t)
  ∧ Notification.fmt (.RemovingOldComponent c h1 t)
      = Notification.fmt (.RemovingOldComponent c h2 t) := by
  rcases t with _ | x
  · exact ⟨rfl, rfl, rfl, rfl⟩
  · simp only [Option.some.injEq, reduceCtorEq, or_false] at hcond
    by_cases hx : h1 = x
    · have hx2 : h2 = x := (hcond.mp hx.symm).symm
      simp [Notification.fmt, hx, hx2]
    · have hx2 : ¬ h2 = x := fun he => hx ((hcond.mpr he.symm).symm)
      simp [Notification.fmt, hx, hx2]

/-- Witness for C10 at concrete hosts that both differ from the target. -/
theorem render_host_noninterference_witness :
    Notification.fmt (.DownloadingComponent "cargo" "hostA" (some "tgt"))
      = Notification.fmt (.DownloadingComponent "cargo" "hostB" (some "tgt")) :=
  (render_host_noninterference "cargo" "hostA" "hostB" (some "tgt")
      (by decide)).1
